import Mathlib

/-!
# Verification of the SagasuSubs upload core

Shallow embedding of `src/SagasuSubs/api/__init__.py` (class `UploadFiles`).

The remote HTTP service is modelled by an `Upstream` record of response
functions; each embedded operation returns an `Effect`: the ordered list of
HTTP calls it issued, the ordered list of log lines it emitted, and either a
value (`Except.ok`) or a raised Python exception (`Except.error`).

Types coming from modules outside `src/` (`SagasuSubs.database.dto`,
`SagasuSubs.api.models`, `SagasuSubs.utils.AdvanceSemaphore`) are modelled
from the spec where noted.
-/

set_option autoImplicit false

namespace SagasuSubs

/-- An HTTP response as seen through `httpx`: a status code and a body
(the JSON text; parsing is abstracted into the `Upstream` parse functions). -/
structure Response where
  status_code : Nat
  body : String
deriving DecidableEq

/-- `httpx` success statuses: the 2xx range.  `Response.raise_for_status()`
raises `httpx.HTTPStatusError` exactly when the status is not a success. -/
def Response.is_success (r : Response) : Bool :=
  200 ≤ r.status_code && r.status_code < 300

/-- The Python exceptions the embedded code can raise. -/
inductive PyError where
  /-- `httpx.HTTPStatusError`, carrying the offending response
  (`e.response` in the source). -/
  | httpStatusError (response : Response)
  /-- `AssertionError` from a failed `assert` statement. -/
  | assertionError
  /-- Any other exception (e.g. `ValueError` from `range`), carrying its
  rendered message. -/
  | otherError (msg : String)
deriving DecidableEq

/-- Modelled from the spec: `SagasuSubs.database.dto.DialogRead` (the dto
module is not under `src/`): one local dialog line with text content and a
time interval.  Time values are carried opaquely, never computed on. -/
structure DialogRecord where
  content : String
  begin : Int
  «end» : Int
deriving DecidableEq

/-- Modelled from the spec: `SagasuSubs.database.dto.FileRead` (the dto
module is not under `src/`): one local record — content hash, filename,
optional grouping identifier, source path and its ordered dialog lines. -/
structure FileRecord where
  filename : String
  sha1 : String
  series_id : Option String
  path : String
  dialogs : List DialogRecord
deriving DecidableEq

/-- Modelled from the spec: `SagasuSubs.api.models.FileRead` (the models
module is not under `src/`): the server-side file entity; only its
server-assigned `id` is consumed by the core. -/
structure FileRead where
  id : String
deriving DecidableEq

/-- Modelled from the spec: `SagasuSubs.api.models.DialogRead`: the
server-side dialog entity, abstracted to its identifier. -/
structure DialogRead where
  id : String
deriving DecidableEq

/-- `models.FileCreate`: the JSON body of `POST /api/files`
(`{filename, sha1, series_id, remark, user_id}`). -/
structure FileCreate where
  filename : String
  sha1 : String
  series_id : Option String
  remark : String
  user_id : Nat
deriving DecidableEq

/-- `models.DialogCreate`: one element of the `bulk` array posted to
`POST /api/dialogs/bulk` (`{file_id, content, begin, end, user_id}`). -/
structure DialogCreate where
  file_id : String
  content : String
  begin : Int
  «end» : Int
  user_id : Nat
deriving DecidableEq

/-- One HTTP call issued by the client, in issue order. -/
inductive ApiCall where
  /-- `GET /api/files/sha1/{sha1}` -/
  | getFileBySha1 (sha1 : String)
  /-- `POST /api/files` with the given JSON body. -/
  | postFile (body : FileCreate)
  /-- `POST /api/dialogs/bulk` with the given `bulk` array (one chunk). -/
  | postDialogsBulk (bulk : List DialogCreate)
deriving DecidableEq

/-- One log line, structurally (constructor per `logger` call site, fields
per interpolated value). -/
inductive LogEvent where
  /-- `logger.debug`: file with this sha1 existed upstream, skipping. -/
  | skipDebug (sha1 : String)
  /-- `logger.debug`: file data synced to upstream. -/
  | fileSyncDebug (filename : String) (sha1 : String)
  /-- `logger.debug`: one dialog chunk synced, with the offset range
  `begin…begin+slice` and the total dialog count. -/
  | dialogSyncDebug (file_id : String) (chunk_begin : Nat) (chunk_stop : Nat)
      (total : Nat)
  /-- `logger.error`: server responded with this status code and body. -/
  | serverError (status_code : Nat) (body : String)
  /-- `logger.exception`: unexpected exception, logged then re-raised. -/
  | exceptionLog (e : PyError)
deriving DecidableEq

deriving instance DecidableEq for Except

/-- The outcome of running one embedded operation: the HTTP calls issued,
the log lines emitted, and the returned value or raised exception. -/
structure Effect (α : Type) where
  calls : List ApiCall
  logs : List LogEvent
  result : Except PyError α
deriving DecidableEq

/-- The remote service and the JSON parsers, abstracted: what the server
answers to each request, and how response bodies parse into entities. -/
structure Upstream where
  get_by_sha1 : String → Response
  post_file : FileCreate → Response
  post_dialogs : List DialogCreate → Response
  parse_file : String → FileRead
  parse_dialogs : String → List DialogRead

/-- Python truthiness of an `Optional[str]` value, as tested by
`assert file.series_id` and `if await self.get_file(...)`. -/
def py_truthy : Option String → Bool
  | none => false
  | some s => !s.isEmpty

/-- Embeds `UploadFiles.get_file`: `GET /api/files/sha1/{sha1}`, then
`response.raise_for_status()` inside `try/except httpx.HTTPStatusError`.
The `except` clause catches every HTTP status error and returns `None`;
on success the body is parsed and a debug line logged. -/
def get_file (up : Upstream) (sha1 : String) : Effect (Option FileRead) :=
  let response := up.get_by_sha1 sha1
  if response.is_success then
    ⟨[ApiCall.getFileBySha1 sha1], [LogEvent.skipDebug sha1],
     Except.ok (some (up.parse_file response.body))⟩
  else
    ⟨[ApiCall.getFileBySha1 sha1], [], Except.ok none⟩

/-- Embeds `UploadFiles.upload_file`: `assert file.series_id`, build the
`FileCreate` body, `POST /api/files`, `raise_for_status()` (uncaught here),
log, and parse the entity.  A failed assert raises before any HTTP call. -/
def upload_file (up : Upstream) (user_id : Nat) (file : FileRecord) :
    Effect FileRead :=
  if py_truthy file.series_id then
    let model : FileCreate :=
      { filename := file.filename
        sha1 := file.sha1
        series_id := file.series_id
        remark := file.path
        user_id := user_id }
    let response := up.post_file model
    if response.is_success then
      ⟨[ApiCall.postFile model], [LogEvent.fileSyncDebug file.filename file.sha1],
       Except.ok (up.parse_file response.body)⟩
    else
      ⟨[ApiCall.postFile model], [],
       Except.error (PyError.httpStatusError response)⟩
  else
    ⟨[], [], Except.error PyError.assertionError⟩

/-- The take/drop decomposition of a list into contiguous chunks of size
`s`, exactly as the `for begin in range(0, len(bulk_data), slice)` loop of
`upload_dialogs` slices `bulk_data[begin : begin + slice]`.  The `s = 0`
case is degenerate and never reached (Python `range` raises first). -/
def chunksOf {α : Type} : Nat → List α → List (List α)
  | _, [] => []
  | 0, l => [l]
  | s + 1, d :: rest => ((d :: rest).take (s + 1)) :: chunksOf (s + 1) (rest.drop s)
termination_by _ l => l.length
decreasing_by
  simp only [List.length_drop, List.length_cons]
  omega

/-- The `for begin in range(0, len(bulk_data), slice)` loop body of
`UploadFiles.upload_dialogs`, run on the dialogs not yet submitted:
post the next chunk, `raise_for_status()` (uncaught here — a failed chunk
raises out of the whole loop), log the offset range, parse and accumulate
this chunk's entities, continue with the rest.  `chunk_begin` is the
current `begin` offset and `total` is `len(bulk_data)`, both only logged.
The `slice = 0` case is unreachable: `upload_dialogs` raises before the
loop when the step is zero. -/
def bulkLoop (up : Upstream) (file_id : String) (total : Nat) :
    Nat → Nat → List DialogCreate → Effect (List DialogRead)
  | _, _, [] => ⟨[], [], Except.ok []⟩
  | 0, _, _ :: _ =>
      ⟨[], [], Except.error (PyError.otherError "range() arg 3 must not be zero")⟩
  | s + 1, chunk_begin, d :: rest =>
    let chunk := (d :: rest).take (s + 1)
    let response := up.post_dialogs chunk
    if response.is_success then
      let r := bulkLoop up file_id total (s + 1) (chunk_begin + (s + 1)) (rest.drop s)
      ⟨ApiCall.postDialogsBulk chunk :: r.calls,
       LogEvent.dialogSyncDebug file_id chunk_begin (chunk_begin + (s + 1)) total :: r.logs,
       r.result.map (fun tail => up.parse_dialogs response.body ++ tail)⟩
    else
      ⟨[ApiCall.postDialogsBulk chunk], [],
       Except.error (PyError.httpStatusError response)⟩
termination_by _ _ l => l.length
decreasing_by
  simp only [List.length_drop, List.length_cons]
  omega

/-- The `bulk_data` list comprehension of `UploadFiles.upload_dialogs`:
one `DialogCreate` per dialog, in input order. -/
def bulk_data (user_id : Nat) (file_id : String)
    (dialogs : List DialogRecord) : List DialogCreate :=
  dialogs.map (fun dialog =>
    ({ file_id := file_id
       content := dialog.content
       begin := dialog.begin
       «end» := dialog.«end»
       user_id := user_id } : DialogCreate))

/-- Embeds `UploadFiles.upload_dialogs`: build the `DialogCreate` bulk data
in input order, resolve the effective slice size by Python truthiness
(`slice = slice or self.upload_slice`), and submit the chunks in offset
order via `bulkLoop`.  A zero effective step makes Python's `range` raise
`ValueError` before any call. -/
def upload_dialogs (up : Upstream) (user_id : Nat) (upload_slice : Nat)
    (file_id : String) (dialogs : List DialogRecord) («slice» : Option Nat) :
    Effect (List DialogRead) :=
  let bulk := bulk_data user_id file_id dialogs
  let s := match «slice» with
    | none => upload_slice
    | some 0 => upload_slice
    | some (n + 1) => n + 1
  if s = 0 then
    ⟨[], [], Except.error (PyError.otherError "range() arg 3 must not be zero")⟩
  else
    bulkLoop up file_id bulk.length s 0 bulk

/-- Embeds `UploadFiles.upload_subtitles`: the per-record workflow.
Outer `try` around everything; dedup check (`if await self.get_file(...)`
— a parsed entity is always truthy — returns `None`); inner `try` around
`upload_file` + `upload_dialogs` whose `except httpx.HTTPStatusError`
logs the status code and body and falls through (returning `None`); the
outer `except Exception` logs with `logger.exception` and re-raises. -/
def upload_subtitles (up : Upstream) (user_id : Nat) (upload_slice : Nat)
    (file : FileRecord) : Effect (Option (List DialogRead)) :=
  let g := get_file up file.sha1
  match g.result with
  | Except.error e =>
      ⟨g.calls, g.logs ++ [LogEvent.exceptionLog e], Except.error e⟩
  | Except.ok (some _) => ⟨g.calls, g.logs, Except.ok none⟩
  | Except.ok none =>
    let f := upload_file up user_id file
    match f.result with
    | Except.error (PyError.httpStatusError r) =>
        ⟨g.calls ++ f.calls,
         g.logs ++ f.logs ++ [LogEvent.serverError r.status_code r.body],
         Except.ok none⟩
    | Except.error e =>
        ⟨g.calls ++ f.calls, g.logs ++ f.logs ++ [LogEvent.exceptionLog e],
         Except.error e⟩
    | Except.ok file_response =>
      let d := upload_dialogs up user_id upload_slice file_response.id
        file.dialogs none
      match d.result with
      | Except.ok dialog_response =>
          ⟨g.calls ++ f.calls ++ d.calls, g.logs ++ f.logs ++ d.logs,
           Except.ok (some dialog_response)⟩
      | Except.error (PyError.httpStatusError r) =>
          ⟨g.calls ++ f.calls ++ d.calls,
           g.logs ++ f.logs ++ d.logs ++
             [LogEvent.serverError r.status_code r.body],
           Except.ok none⟩
      | Except.error e =>
          ⟨g.calls ++ f.calls ++ d.calls,
           g.logs ++ f.logs ++ d.logs ++ [LogEvent.exceptionLog e],
           Except.error e⟩

/-!
## The orchestrator run loop and the capacity limiter

`UploadFiles.run` iterates the record source; for each record it
`await sem.acquire()`, launches `upload_subtitles` as an `asyncio` task and
attaches `task.add_done_callback(lambda _: sem.release())`; after the loop
it `await sem.wait_all_finish()`.

Modelled from the spec: `AdvanceSemaphore` (`SagasuSubs.utils`, not under
`src/`): `acquire()` suspends until fewer than `parallel` units are
admitted and increments the outstanding-work counter; `release()`
decrements it; `wait_all_finish()` suspends until it is zero.

The loop is embedded as a labelled transition system: `RunState` counts the
records not yet launched (`pending`) and the outstanding-work counter
(`active`); a schedule is a list of `RunAction`s, each either the
single-threaded loop launching the next record (guarded by `acquire`) or
some launched task completing (with its success/failure outcome `ok`),
whose done-callback releases the slot. -/

/-- State of the run loop: records not yet launched, and the semaphore's
outstanding-work counter (launched, not yet completed units). -/
structure RunState where
  pending : Nat
  active : Nat
deriving DecidableEq

/-- One scheduler event during `run`. -/
inductive RunAction where
  /-- The loop body runs once: `acquire()` succeeds and the next record's
  task is created. -/
  | launch
  /-- Some in-flight task finishes with outcome `ok` (success or raised
  exception); its done-callback calls `release()` once. -/
  | complete (ok : Bool)
deriving DecidableEq

/-- One step of the run-loop transition system: `launch` needs a record
left and a free slot (`acquire` admits only while `active < parallel`);
`complete` needs an in-flight task and releases its slot whatever the
task's outcome was. -/
def runStep (parallel : Nat) : RunState → RunAction → Option RunState
  | ⟨p + 1, a⟩, RunAction.launch =>
      if a < parallel then some ⟨p, a + 1⟩ else none
  | ⟨0, _⟩, RunAction.launch => none
  | ⟨p, a + 1⟩, RunAction.complete _ => some ⟨p, a⟩
  | ⟨_, 0⟩, RunAction.complete _ => none

/-- Run a whole schedule from a state; `none` if some event was not
enabled. -/
def runTrace (parallel : Nat) : RunState → List RunAction → Option RunState
  | s, [] => some s
  | s, act :: rest =>
    match runStep parallel s act with
    | none => none
    | some s2 => runTrace parallel s2 rest

/-- Number of `acquire`-and-launch events in a schedule. -/
def countLaunch (acts : List RunAction) : Nat :=
  acts.countP (fun a => a = RunAction.launch)

/-- Number of task completions (hence `release()` calls) in a schedule. -/
def countComplete (acts : List RunAction) : Nat :=
  acts.countP (fun a => match a with
    | RunAction.complete _ => true
    | RunAction.launch => false)

/-!
## Concrete fixtures

Closed records and upstream behaviours used to instantiate the theorems.
-/

/-- A record with three dialog lines and a grouping identifier. -/
def fileA : FileRecord :=
  { filename := "ep1.ass"
    sha1 := "def456"
    series_id := some "series-9"
    path := "/local/ep1.ass"
    dialogs := [⟨"line one", 0, 100⟩, ⟨"line two", 100, 200⟩,
                ⟨"line three", 200, 300⟩] }

/-- A record violating the `series_id` precondition. -/
def fileNoSeries : FileRecord :=
  { filename := "ep2.ass"
    sha1 := "abc999"
    series_id := none
    path := "/local/ep2.ass"
    dialogs := [] }

/-- Server on which every lookup finds the file (status 200). -/
def upstreamFound : Upstream :=
  ⟨fun _ => ⟨200, "found-file"⟩, fun _ => ⟨200, "created-file"⟩,
   fun _ => ⟨200, "created-dialogs"⟩, fun _ => ⟨"fid-1"⟩, fun _ => [⟨"dlg-1"⟩]⟩

/-- Server on which the lookup misses (404) and both creations succeed. -/
def upstreamNew : Upstream :=
  ⟨fun _ => ⟨404, "not found"⟩, fun _ => ⟨200, "created-file"⟩,
   fun _ => ⟨200, "created-dialogs"⟩, fun _ => ⟨"fid-1"⟩, fun _ => [⟨"dlg-1"⟩]⟩

/-- Server on which the lookup itself fails with a 500. -/
def upstream500 : Upstream :=
  ⟨fun _ => ⟨500, "internal error"⟩, fun _ => ⟨200, "created-file"⟩,
   fun _ => ⟨200, "created-dialogs"⟩, fun _ => ⟨"fid-1"⟩, fun _ => [⟨"dlg-1"⟩]⟩

/-- Server on which the lookup misses and `POST /api/files` fails (500). -/
def upstreamCreateFail : Upstream :=
  ⟨fun _ => ⟨404, "not found"⟩, fun _ => ⟨500, "file create broke"⟩,
   fun _ => ⟨200, "created-dialogs"⟩, fun _ => ⟨"fid-1"⟩, fun _ => [⟨"dlg-1"⟩]⟩

/-- Server on which the lookup misses, the file is created, and every
bulk-dialog chunk of length two succeeds while any other chunk fails. -/
def upstreamChunk2 : Upstream :=
  ⟨fun _ => ⟨404, "not found"⟩, fun _ => ⟨200, "created-file"⟩,
   fun bulk => if bulk.length = 2 then ⟨200, "created-dialogs"⟩
               else ⟨500, "bulk broke"⟩,
   fun _ => ⟨"fid-1"⟩, fun _ => [⟨"dlg-1"⟩]⟩

/-- A complete schedule for 5 records at parallelism 2 (spec scenario 5):
launch, launch, then alternate completions (of either outcome) and
launches, then drain. -/
def acts5 : List RunAction :=
  [RunAction.launch, RunAction.launch, RunAction.complete true,
   RunAction.launch, RunAction.complete false, RunAction.launch,
   RunAction.complete true, RunAction.launch, RunAction.complete false,
   RunAction.complete true]

/-!
## Helper lemmas
-/

/-- `get_file` always returns normally: absence on any non-success status,
the parsed entity on success. -/
theorem get_file_result (up : Upstream) (sha1 : String) :
    (get_file up sha1).result =
      Except.ok (if (up.get_by_sha1 sha1).is_success
        then some (up.parse_file (up.get_by_sha1 sha1).body) else none) := by
  unfold get_file
  split <;> simp_all

/-- Scenario equation: lookup finds the file — skip. -/
theorem upload_subtitles_skip_eq (up : Upstream) (user_id upload_slice : Nat)
    (file : FileRecord)
    (h : (up.get_by_sha1 file.sha1).is_success = true) :
    upload_subtitles up user_id upload_slice file =
      ⟨[ApiCall.getFileBySha1 file.sha1], [LogEvent.skipDebug file.sha1],
       Except.ok none⟩ := by
  unfold upload_subtitles get_file
  simp [h]

/-- Scenario equation: lookup misses and `upload_file` raises an HTTP
status error — caught, logged, contained. -/
theorem upload_subtitles_create_fail_eq (up : Upstream)
    (user_id upload_slice : Nat) (file : FileRecord) (r : Response)
    (hget : (up.get_by_sha1 file.sha1).is_success = false)
    (hf : (upload_file up user_id file).result =
      Except.error (PyError.httpStatusError r)) :
    upload_subtitles up user_id upload_slice file =
      ⟨ApiCall.getFileBySha1 file.sha1 :: (upload_file up user_id file).calls,
       (upload_file up user_id file).logs ++
         [LogEvent.serverError r.status_code r.body],
       Except.ok none⟩ := by
  have hg : get_file up file.sha1 =
      ⟨[ApiCall.getFileBySha1 file.sha1], [], Except.ok none⟩ := by
    unfold get_file
    simp [hget]
  unfold upload_subtitles
  rw [hg]
  dsimp only
  rw [hf]
  simp

/-- Scenario equation: lookup misses and `upload_file` raises a
non-HTTP-status exception — logged and re-raised. -/
theorem upload_subtitles_create_raise_eq (up : Upstream)
    (user_id upload_slice : Nat) (file : FileRecord) (e : PyError)
    (hget : (up.get_by_sha1 file.sha1).is_success = false)
    (hf : (upload_file up user_id file).result = Except.error e)
    (hne : ∀ r, e ≠ PyError.httpStatusError r) :
    upload_subtitles up user_id upload_slice file =
      ⟨ApiCall.getFileBySha1 file.sha1 :: (upload_file up user_id file).calls,
       (upload_file up user_id file).logs ++ [LogEvent.exceptionLog e],
       Except.error e⟩ := by
  have hg : get_file up file.sha1 =
      ⟨[ApiCall.getFileBySha1 file.sha1], [], Except.ok none⟩ := by
    unfold get_file
    simp [hget]
  unfold upload_subtitles
  rw [hg]
  dsimp only
  rw [hf]
  cases e with
  | httpStatusError r => exact absurd rfl (hne r)
  | assertionError => rfl
  | otherError m => rfl

/-- Scenario equation: lookup misses, file created, all dialogs created. -/
theorem upload_subtitles_done_eq (up : Upstream) (user_id upload_slice : Nat)
    (file : FileRecord) (fr : FileRead) (l : List DialogRead)
    (hget : (up.get_by_sha1 file.sha1).is_success = false)
    (hf : (upload_file up user_id file).result = Except.ok fr)
    (hd : (upload_dialogs up user_id upload_slice fr.id file.dialogs
      none).result = Except.ok l) :
    upload_subtitles up user_id upload_slice file =
      ⟨ApiCall.getFileBySha1 file.sha1 :: (upload_file up user_id file).calls ++
         (upload_dialogs up user_id upload_slice fr.id file.dialogs none).calls,
       (upload_file up user_id file).logs ++
         (upload_dialogs up user_id upload_slice fr.id file.dialogs none).logs,
       Except.ok (some l)⟩ := by
  have hg : get_file up file.sha1 =
      ⟨[ApiCall.getFileBySha1 file.sha1], [], Except.ok none⟩ := by
    unfold get_file
    simp [hget]
  unfold upload_subtitles
  rw [hg]
  dsimp only
  rw [hf]
  dsimp only
  rw [hd]
  simp

/-- Scenario equation: lookup misses, file created, a dialog chunk raises
an HTTP status error — caught, logged, contained. -/
theorem upload_subtitles_dialogs_fail_eq (up : Upstream)
    (user_id upload_slice : Nat) (file : FileRecord) (fr : FileRead)
    (r : Response)
    (hget : (up.get_by_sha1 file.sha1).is_success = false)
    (hf : (upload_file up user_id file).result = Except.ok fr)
    (hd : (upload_dialogs up user_id upload_slice fr.id file.dialogs
      none).result = Except.error (PyError.httpStatusError r)) :
    upload_subtitles up user_id upload_slice file =
      ⟨ApiCall.getFileBySha1 file.sha1 :: (upload_file up user_id file).calls ++
         (upload_dialogs up user_id upload_slice fr.id file.dialogs none).calls,
       (upload_file up user_id file).logs ++
         (upload_dialogs up user_id upload_slice fr.id file.dialogs none).logs ++
         [LogEvent.serverError r.status_code r.body],
       Except.ok none⟩ := by
  have hg : get_file up file.sha1 =
      ⟨[ApiCall.getFileBySha1 file.sha1], [], Except.ok none⟩ := by
    unfold get_file
    simp [hget]
  unfold upload_subtitles
  rw [hg]
  dsimp only
  rw [hf]
  dsimp only
  rw [hd]
  simp

/-- Scenario equation: lookup misses, file created, dialogs raise a
non-HTTP-status exception — logged and re-raised. -/
theorem upload_subtitles_dialogs_raise_eq (up : Upstream)
    (user_id upload_slice : Nat) (file : FileRecord) (fr : FileRead)
    (e : PyError)
    (hget : (up.get_by_sha1 file.sha1).is_success = false)
    (hf : (upload_file up user_id file).result = Except.ok fr)
    (hd : (upload_dialogs up user_id upload_slice fr.id file.dialogs
      none).result = Except.error e)
    (hne : ∀ r, e ≠ PyError.httpStatusError r) :
    upload_subtitles up user_id upload_slice file =
      ⟨ApiCall.getFileBySha1 file.sha1 :: (upload_file up user_id file).calls ++
         (upload_dialogs up user_id upload_slice fr.id file.dialogs none).calls,
       (upload_file up user_id file).logs ++
         (upload_dialogs up user_id upload_slice fr.id file.dialogs none).logs ++
         [LogEvent.exceptionLog e],
       Except.error e⟩ := by
  have hg : get_file up file.sha1 =
      ⟨[ApiCall.getFileBySha1 file.sha1], [], Except.ok none⟩ := by
    unfold get_file
    simp [hget]
  unfold upload_subtitles
  rw [hg]
  dsimp only
  rw [hf]
  dsimp only
  rw [hd]
  cases e with
  | httpStatusError r => exact absurd rfl (hne r)
  | assertionError => rfl
  | otherError m => rfl

/-!
## Claims
-/

/-- C1, counterexample: a 500 response on the existence lookup — a
non-success status that is not the not-found status — is converted into
absence (`None`) instead of propagating as an error, because the
`except httpx.HTTPStatusError` clause in `get_file` catches every
HTTP status error. -/
theorem get_file_500_gives_absence :
    (Response.mk 500 "internal error").is_success = false ∧
    (500 : Nat) ≠ 404 ∧
    upstream500.get_by_sha1 "def456" = Response.mk 500 "internal error" ∧
    (get_file upstream500 "def456").result = Except.ok none ∧
    (get_file upstream500 "def456").result ≠
      Except.error (PyError.httpStatusError (Response.mk 500 "internal error")) := by
  refine ⟨by decide, by decide, rfl, rfl, by decide⟩

/-- C1 (amended): a not-found response makes `get_file` return absence,
and so does every other non-success HTTP status — no HTTP status error
propagates to the caller; only a 2xx response yields the parsed entity. -/
theorem get_file_absence_on_any_error (up : Upstream) (sha1 : String) :
    ((up.get_by_sha1 sha1).is_success = false →
      (get_file up sha1).result = Except.ok none) ∧
    ((up.get_by_sha1 sha1).is_success = true →
      (get_file up sha1).result =
        Except.ok (some (up.parse_file (up.get_by_sha1 sha1).body))) ∧
    (∀ e : PyError, (get_file up sha1).result ≠ Except.error e) := by
  refine ⟨fun h => ?_, fun h => ?_, fun e => ?_⟩ <;>
    rw [get_file_result up sha1]
  · simp [h]
  · simp [h]
  · split <;> simp

/-- C1 witness. -/
theorem get_file_absence_on_any_error_witness :
    (get_file upstream500 "def456").result = Except.ok none :=
  (get_file_absence_on_any_error upstream500 "def456").1 (by decide)

/-- C2: when the existence lookup succeeds (the hash is already present
upstream), `upload_subtitles` issues only that lookup — no
`POST /api/files` and no `POST /api/dialogs/bulk` — and returns normally
(`None`), i.e. the record is skipped, not failed. -/
theorem upload_subtitles_dedup_skip (up : Upstream) (user_id upload_slice : Nat)
    (file : FileRecord)
    (h : (up.get_by_sha1 file.sha1).is_success = true) :
    (upload_subtitles up user_id upload_slice file).calls =
      [ApiCall.getFileBySha1 file.sha1] ∧
    (∀ b, ApiCall.postFile b ∉ (upload_subtitles up user_id upload_slice file).calls) ∧
    (∀ bulk, ApiCall.postDialogsBulk bulk ∉
      (upload_subtitles up user_id upload_slice file).calls) ∧
    (upload_subtitles up user_id upload_slice file).result = Except.ok none := by
  have hmain :
      upload_subtitles up user_id upload_slice file =
        ⟨[ApiCall.getFileBySha1 file.sha1], [LogEvent.skipDebug file.sha1],
         Except.ok none⟩ := by
    unfold upload_subtitles get_file
    simp [h]
  rw [hmain]
  refine ⟨rfl, fun b => ?_, fun bulk => ?_, rfl⟩ <;> simp

/-- C2 witness. -/
theorem upload_subtitles_dedup_skip_witness :
    (upload_subtitles upstreamFound 7 400 fileA).calls =
      [ApiCall.getFileBySha1 fileA.sha1] ∧
    (upload_subtitles upstreamFound 7 400 fileA).result = Except.ok none :=
  ⟨(upload_subtitles_dedup_skip upstreamFound 7 400 fileA (by decide)).1,
   (upload_subtitles_dedup_skip upstreamFound 7 400 fileA (by decide)).2.2.2⟩

/-- C9: `upload_file`'s `assert file.series_id` — under the precondition
(a truthy, i.e. present and non-empty, grouping identifier) the assertion
never fails; violating the precondition raises `AssertionError` before any
HTTP call is made, a programming error rather than a remote error. -/
theorem upload_file_series_id_precondition (up : Upstream) (user_id : Nat)
    (file : FileRecord) :
    (py_truthy file.series_id = true →
      (upload_file up user_id file).result ≠
        Except.error PyError.assertionError) ∧
    (py_truthy file.series_id = false →
      (upload_file up user_id file).result =
        Except.error PyError.assertionError ∧
      (upload_file up user_id file).calls = []) := by
  unfold upload_file
  constructor
  · intro h
    rw [if_pos h]
    dsimp only
    split <;> simp
  · intro h
    rw [if_neg (by simp [h])]
    exact ⟨rfl, rfl⟩

/-- C9 witness. -/
theorem upload_file_series_id_precondition_witness :
    (upload_file upstreamNew 7 fileA).result ≠
      Except.error PyError.assertionError ∧
    ((upload_file upstreamNew 7 fileNoSeries).result =
      Except.error PyError.assertionError ∧
     (upload_file upstreamNew 7 fileNoSeries).calls = []) :=
  ⟨(upload_file_series_id_precondition upstreamNew 7 fileA).1 (by decide),
   (upload_file_series_id_precondition upstreamNew 7 fileNoSeries).2 (by decide)⟩

/-- C4: an HTTP status error raised during create-file or create-dialogs
is caught inside `upload_subtitles`, logged with the response's status
code and body, and not re-raised: the unit returns normally (`None`,
i.e. `FAILED` but contained), and no HTTP status error ever escapes
`upload_subtitles`. -/
theorem upload_subtitles_contains_http_errors (up : Upstream)
    (user_id upload_slice : Nat) (file : FileRecord) :
    (∀ r, (upload_subtitles up user_id upload_slice file).result ≠
      Except.error (PyError.httpStatusError r)) ∧
    (∀ r, (up.get_by_sha1 file.sha1).is_success = false →
      (upload_file up user_id file).result =
        Except.error (PyError.httpStatusError r) →
      (upload_subtitles up user_id upload_slice file).result = Except.ok none ∧
      LogEvent.serverError r.status_code r.body ∈
        (upload_subtitles up user_id upload_slice file).logs) ∧
    (∀ fr r, (up.get_by_sha1 file.sha1).is_success = false →
      (upload_file up user_id file).result = Except.ok fr →
      (upload_dialogs up user_id upload_slice fr.id file.dialogs
        none).result = Except.error (PyError.httpStatusError r) →
      (upload_subtitles up user_id upload_slice file).result = Except.ok none ∧
      LogEvent.serverError r.status_code r.body ∈
        (upload_subtitles up user_id upload_slice file).logs) := by
  refine ⟨fun r => ?_, fun r hget hf => ?_, fun fr r hget hf hd => ?_⟩
  · rcases Bool.eq_false_or_eq_true (up.get_by_sha1 file.sha1).is_success
      with hget | hget
    · rw [upload_subtitles_skip_eq up user_id upload_slice file hget]
      simp
    · rcases hf : (upload_file up user_id file).result with e | fr
      · cases e with
        | httpStatusError r2 =>
            rw [upload_subtitles_create_fail_eq up user_id upload_slice file
              r2 hget hf]
            simp
        | assertionError =>
            rw [upload_subtitles_create_raise_eq up user_id upload_slice file
              PyError.assertionError hget hf (by intro r2 h; cases h)]
            simp
        | otherError m =>
            rw [upload_subtitles_create_raise_eq up user_id upload_slice file
              (PyError.otherError m) hget hf (by intro r2 h; cases h)]
            simp
      · rcases hd : (upload_dialogs up user_id upload_slice fr.id
          file.dialogs none).result with e | l
        · cases e with
          | httpStatusError r2 =>
              rw [upload_subtitles_dialogs_fail_eq up user_id upload_slice
                file fr r2 hget hf hd]
              simp
          | assertionError =>
              rw [upload_subtitles_dialogs_raise_eq up user_id upload_slice
                file fr PyError.assertionError hget hf hd
                (by intro r2 h; cases h)]
              simp
          | otherError m =>
              rw [upload_subtitles_dialogs_raise_eq up user_id upload_slice
                file fr (PyError.otherError m) hget hf hd
                (by intro r2 h; cases h)]
              simp
        · rw [upload_subtitles_done_eq up user_id upload_slice file fr l
            hget hf hd]
          simp
  · rw [upload_subtitles_create_fail_eq up user_id upload_slice file r
      hget hf]
    simp
  · rw [upload_subtitles_dialogs_fail_eq up user_id upload_slice file fr r
      hget hf hd]
    simp

/-- C4 witness. -/
theorem upload_subtitles_contains_http_errors_witness :
    (upload_subtitles upstreamCreateFail 7 400 fileA).result =
      Except.ok none ∧
    LogEvent.serverError 500 "file create broke" ∈
      (upload_subtitles upstreamCreateFail 7 400 fileA).logs :=
  (upload_subtitles_contains_http_errors upstreamCreateFail 7 400 fileA).2.1
    (Response.mk 500 "file create broke") (by decide) rfl

/-- The failed `assert` makes `upload_file` raise `AssertionError` before
any call. -/
theorem upload_file_assert_fail (up : Upstream) (user_id : Nat)
    (file : FileRecord) (h : py_truthy file.series_id = false) :
    upload_file up user_id file =
      ⟨[], [], Except.error PyError.assertionError⟩ := by
  unfold upload_file
  rw [if_neg (by simp [h])]

/-- C8: any exception other than an HTTP status error escapes
`upload_subtitles`: every raised result is a non-HTTP-status exception and
was logged via `logger.exception` before re-raising; in particular a
failed `series_id` assertion propagates out of the unit. -/
theorem upload_subtitles_reraises_unexpected (up : Upstream)
    (user_id upload_slice : Nat) (file : FileRecord) :
    (∀ e, (upload_subtitles up user_id upload_slice file).result =
        Except.error e →
      (∀ r, e ≠ PyError.httpStatusError r) ∧
      LogEvent.exceptionLog e ∈
        (upload_subtitles up user_id upload_slice file).logs) ∧
    ((up.get_by_sha1 file.sha1).is_success = false →
      py_truthy file.series_id = false →
      (upload_subtitles up user_id upload_slice file).result =
        Except.error PyError.assertionError) := by
  constructor
  · intro e he
    rcases Bool.eq_false_or_eq_true (up.get_by_sha1 file.sha1).is_success
      with hget | hget
    · rw [upload_subtitles_skip_eq up user_id upload_slice file hget] at he
      cases he
    · rcases hf : (upload_file up user_id file).result with e2 | fr
      · cases e2 with
        | httpStatusError r2 =>
            rw [upload_subtitles_create_fail_eq up user_id upload_slice file
              r2 hget hf] at he
            cases he
        | assertionError =>
            rw [upload_subtitles_create_raise_eq up user_id upload_slice file
              PyError.assertionError hget hf (by intro r2 h; cases h)] at he ⊢
            cases he
            exact ⟨fun r2 h => PyError.noConfusion h, by simp⟩
        | otherError m =>
            rw [upload_subtitles_create_raise_eq up user_id upload_slice file
              (PyError.otherError m) hget hf (by intro r2 h; cases h)]
              at he ⊢
            cases he
            exact ⟨fun r2 h => PyError.noConfusion h, by simp⟩
      · rcases hd : (upload_dialogs up user_id upload_slice fr.id
          file.dialogs none).result with e2 | l
        · cases e2 with
          | httpStatusError r2 =>
              rw [upload_subtitles_dialogs_fail_eq up user_id upload_slice
                file fr r2 hget hf hd] at he
              cases he
          | assertionError =>
              rw [upload_subtitles_dialogs_raise_eq up user_id upload_slice
                file fr PyError.assertionError hget hf hd
                (by intro r2 h; cases h)] at he ⊢
              cases he
              exact ⟨fun r2 h => PyError.noConfusion h, by simp⟩
          | otherError m =>
              rw [upload_subtitles_dialogs_raise_eq up user_id upload_slice
                file fr (PyError.otherError m) hget hf hd
                (by intro r2 h; cases h)] at he ⊢
              cases he
              exact ⟨fun r2 h => PyError.noConfusion h, by simp⟩
        · rw [upload_subtitles_done_eq up user_id upload_slice file fr l
            hget hf hd] at he
          cases he
  · intro hget hassert
    rw [upload_subtitles_create_raise_eq up user_id upload_slice file
      PyError.assertionError hget
      (by rw [upload_file_assert_fail up user_id file hassert])
      (by intro r2 h; cases h)]

/-- C8 witness. -/
theorem upload_subtitles_reraises_unexpected_witness :
    (upload_subtitles upstreamNew 7 400 fileNoSeries).result =
      Except.error PyError.assertionError :=
  (upload_subtitles_reraises_unexpected upstreamNew 7 400 fileNoSeries).2
    (by decide) (by decide)

/-- C10: `upload_subtitles` returns `None` both on a dedup skip and on a
contained HTTP-status failure during create-file or create-dialogs, and
returns the created dialog entities exactly on a fully successful creation
sequence — the return value cannot distinguish a skip from a contained
failure. -/
theorem upload_subtitles_return_value (up : Upstream)
    (user_id upload_slice : Nat) (file : FileRecord) :
    ((up.get_by_sha1 file.sha1).is_success = true →
      (upload_subtitles up user_id upload_slice file).result =
        Except.ok none) ∧
    (∀ r, (up.get_by_sha1 file.sha1).is_success = false →
      (upload_file up user_id file).result =
        Except.error (PyError.httpStatusError r) →
      (upload_subtitles up user_id upload_slice file).result =
        Except.ok none) ∧
    (∀ fr r, (up.get_by_sha1 file.sha1).is_success = false →
      (upload_file up user_id file).result = Except.ok fr →
      (upload_dialogs up user_id upload_slice fr.id file.dialogs
        none).result = Except.error (PyError.httpStatusError r) →
      (upload_subtitles up user_id upload_slice file).result =
        Except.ok none) ∧
    (∀ fr l, (up.get_by_sha1 file.sha1).is_success = false →
      (upload_file up user_id file).result = Except.ok fr →
      (upload_dialogs up user_id upload_slice fr.id file.dialogs
        none).result = Except.ok l →
      (upload_subtitles up user_id upload_slice file).result =
        Except.ok (some l)) := by
  refine ⟨fun hget => ?_, fun r hget hf => ?_, fun fr r hget hf hd => ?_,
    fun fr l hget hf hd => ?_⟩
  · rw [upload_subtitles_skip_eq up user_id upload_slice file hget]
  · rw [upload_subtitles_create_fail_eq up user_id upload_slice file r
      hget hf]
  · rw [upload_subtitles_dialogs_fail_eq up user_id upload_slice file fr r
      hget hf hd]
  · rw [upload_subtitles_done_eq up user_id upload_slice file fr l
      hget hf hd]

/-- C10 witness. -/
theorem upload_subtitles_return_value_witness :
    (upload_subtitles upstreamFound 7 400 fileA).result = Except.ok none ∧
    (upload_subtitles upstreamCreateFail 7 400 fileA).result = Except.ok none ∧
    (upload_subtitles upstreamNew 7 400 fileA).result =
      Except.ok (some [DialogRead.mk "dlg-1"]) :=
  ⟨(upload_subtitles_return_value upstreamFound 7 400 fileA).1 (by decide),
   (upload_subtitles_return_value upstreamCreateFail 7 400 fileA).2.1
     (Response.mk 500 "file create broke") (by decide) rfl,
   (upload_subtitles_return_value upstreamNew 7 400 fileA).2.2.2
     (FileRead.mk "fid-1") [DialogRead.mk "dlg-1"] (by decide) rfl
     (by simp [upload_dialogs, bulk_data, bulkLoop, upstreamNew, fileA,
       Response.is_success, Except.map])⟩

/-- The chunks concatenate back to the original list: the decomposition is
contiguous and order-preserving. -/
theorem chunksOf_flatten {α : Type} (s : Nat) (l : List α) :
    (chunksOf s l).flatten = l := by
  induction s, l using chunksOf.induct with
  | case1 s => simp [chunksOf]
  | case2 l => simp [chunksOf]
  | case3 s d rest ih =>
      rw [chunksOf]
      simp only [List.flatten_cons, ih, List.take_succ_cons]
      simp [List.take_append_drop]

/-- Every chunk has at most `s` elements (for a positive slice size). -/
theorem chunksOf_mem_length {α : Type} (s : Nat) (hs : s ≠ 0) (l : List α) :
    ∀ c ∈ chunksOf s l, c.length ≤ s := by
  induction s, l using chunksOf.induct with
  | case1 s => simp [chunksOf]
  | case2 l => exact absurd rfl hs
  | case3 s d rest ih =>
      rw [chunksOf]
      intro c hc
      rcases List.mem_cons.mp hc with hc | hc
      · subst hc
        simp [List.length_take]
      · exact ih hs c hc

/-- There are exactly `⌈length / s⌉` chunks, written `(length + s - 1) / s`
in natural division. -/
theorem chunksOf_length {α : Type} (s : Nat) (hs : s ≠ 0) (l : List α) :
    (chunksOf s l).length = (l.length + s - 1) / s := by
  induction s, l using chunksOf.induct with
  | case1 s =>
      rcases Nat.exists_eq_succ_of_ne_zero hs with ⟨n, rfl⟩
      rw [chunksOf]
      simp [Nat.div_eq_of_lt]
  | case2 l => exact absurd rfl hs
  | case3 s d rest ih =>
      rw [chunksOf]
      simp only [List.length_cons, List.length_drop] at ih ⊢
      rw [ih hs]
      have h1 : rest.length + 1 + (s + 1) - 1 = rest.length + (s + 1) := by omega
      rw [h1, Nat.add_div_right _ (Nat.succ_pos s)]
      rcases le_or_lt s rest.length with hle | hlt
      · have h2 : rest.length - s + (s + 1) - 1 = rest.length := by omega
        rw [h2]
      · have h2 : rest.length - s = 0 := by omega
        rw [h2]
        rw [Nat.div_eq_of_lt (by omega), Nat.div_eq_of_lt (by omega)]

/-- One successful loop iteration of `bulkLoop`. -/
theorem bulkLoop_cons_success (up : Upstream) (fid : String) (total : Nat)
    (s b : Nat) (d : DialogCreate) (rest : List DialogCreate)
    (hsucc : (up.post_dialogs ((d :: rest).take (s + 1))).is_success = true) :
    bulkLoop up fid total (s + 1) b (d :: rest) =
      ⟨ApiCall.postDialogsBulk ((d :: rest).take (s + 1)) ::
         (bulkLoop up fid total (s + 1) (b + (s + 1)) (rest.drop s)).calls,
       LogEvent.dialogSyncDebug fid b (b + (s + 1)) total ::
         (bulkLoop up fid total (s + 1) (b + (s + 1)) (rest.drop s)).logs,
       (bulkLoop up fid total (s + 1) (b + (s + 1)) (rest.drop s)).result.map
         (fun tail =>
           up.parse_dialogs (up.post_dialogs ((d :: rest).take (s + 1))).body ++
             tail)⟩ := by
  simp only [List.take_succ_cons] at hsucc
  conv_lhs => rw [bulkLoop]
  simp [hsucc]

/-- One failing loop iteration of `bulkLoop`: `raise_for_status()` raises
and the loop stops with the error. -/
theorem bulkLoop_cons_failure (up : Upstream) (fid : String) (total : Nat)
    (s b : Nat) (d : DialogCreate) (rest : List DialogCreate)
    (hfail : (up.post_dialogs ((d :: rest).take (s + 1))).is_success = false) :
    bulkLoop up fid total (s + 1) b (d :: rest) =
      ⟨[ApiCall.postDialogsBulk ((d :: rest).take (s + 1))], [],
       Except.error (PyError.httpStatusError
         (up.post_dialogs ((d :: rest).take (s + 1))))⟩ := by
  simp only [List.take_succ_cons] at hfail
  conv_lhs => rw [bulkLoop]
  simp [hfail]

/-- When the server accepts every chunk, `bulkLoop` posts exactly the
chunks of the bulk data, in order, and returns the concatenation, in
submission order, of each chunk's parsed entities. -/
theorem bulkLoop_success (up : Upstream) (fid : String) (total : Nat)
    (s b : Nat) (l : List DialogCreate) :
    s ≠ 0 →
    (∀ c ∈ chunksOf s l, (up.post_dialogs c).is_success = true) →
    (bulkLoop up fid total s b l).calls =
      (chunksOf s l).map ApiCall.postDialogsBulk ∧
    (bulkLoop up fid total s b l).result =
      Except.ok (((chunksOf s l).map
        (fun c => up.parse_dialogs (up.post_dialogs c).body)).flatten) := by
  induction s, b, l using bulkLoop.induct up fid total with
  | case1 a b =>
      intro _ _
      constructor <;> simp [bulkLoop, chunksOf]
  | case2 b d rest =>
      intro hs _
      exact absurd rfl hs
  | case3 s b d rest chunk response hsucc ih =>
      intro hs hall
      have hsucc2 :
          (up.post_dialogs ((d :: rest).take (s + 1))).is_success = true :=
        hsucc
      have hch : chunksOf (s + 1) (d :: rest) =
          ((d :: rest).take (s + 1)) :: chunksOf (s + 1) (rest.drop s) := by
        rw [chunksOf]
      have hall2 : ∀ c ∈ chunksOf (s + 1) (rest.drop s),
          (up.post_dialogs c).is_success = true := by
        intro c hc
        exact hall c (by rw [hch]; exact List.mem_cons_of_mem _ hc)
      obtain ⟨ihc, ihr⟩ := ih hs hall2
      rw [bulkLoop_cons_success up fid total s b d rest hsucc2]
      refine ⟨?_, ?_⟩
      · simp only [hch, List.map_cons]
        rw [ihc]
      · simp only [hch, List.map_cons, List.flatten_cons]
        rw [ihr]
        simp [Except.map]
  | case4 s b d rest chunk response hfail =>
      intro hs hall
      have hsucc2 :
          (up.post_dialogs ((d :: rest).take (s + 1))).is_success = true :=
        hall _ (by rw [chunksOf]; exact List.mem_cons_self _ _)
      exact absurd hsucc2 hfail

/-- When chunks `pre` are accepted and the next chunk `ck` is rejected,
`bulkLoop` posts exactly `pre ++ [ck]` — the already-submitted chunks plus
the failed attempt, with no further call and no compensating call — and
raises the HTTP status error of the rejected chunk. -/
theorem bulkLoop_failure (up : Upstream) (fid : String) (total : Nat)
    (s : Nat) (hs : s ≠ 0) (post : List (List DialogCreate))
    (ck : List DialogCreate)
    (hfail : (up.post_dialogs ck).is_success = false) :
    ∀ (pre : List (List DialogCreate)) (l : List DialogCreate) (b : Nat),
      chunksOf s l = pre ++ ck :: post →
      (∀ c ∈ pre, (up.post_dialogs c).is_success = true) →
      (bulkLoop up fid total s b l).calls =
        (pre ++ [ck]).map ApiCall.postDialogsBulk ∧
      (bulkLoop up fid total s b l).result =
        Except.error (PyError.httpStatusError (up.post_dialogs ck)) := by
  intro pre
  induction pre with
  | nil =>
      intro l b hch hpre
      cases l with
      | nil => simp [chunksOf] at hch
      | cons d rest =>
          rcases Nat.exists_eq_succ_of_ne_zero hs with ⟨s0, rfl⟩
          rw [chunksOf] at hch
          simp only [List.nil_append] at hch
          injection hch with hck hpost
          subst hck
          rw [bulkLoop_cons_failure up fid total s0 b d rest hfail]
          constructor <;> simp
  | cons c pre0 ih =>
      intro l b hch hpre
      cases l with
      | nil => simp [chunksOf] at hch
      | cons d rest =>
          rcases Nat.exists_eq_succ_of_ne_zero hs with ⟨s0, rfl⟩
          rw [chunksOf] at hch
          simp only [List.cons_append] at hch
          injection hch with hc htail
          have hsucc2 :
              (up.post_dialogs ((d :: rest).take (s0 + 1))).is_success =
                true := by
            rw [hc]
            exact hpre c (List.mem_cons_self _ _)
          obtain ⟨ihc, ihr⟩ := ih (rest.drop s0) (b + (s0 + 1)) htail
            (fun x hx => hpre x (List.mem_cons_of_mem _ hx))
          rw [bulkLoop_cons_success up fid total s0 b d rest hsucc2]
          refine ⟨?_, ?_⟩
          · simp only [List.cons_append, List.map_cons]
            rw [ihc, hc]
          · rw [ihr]
            simp [Except.map]

/-- With a positive explicit slice size, `upload_dialogs` is the chunk
loop over the bulk data starting at offset 0. -/
theorem upload_dialogs_eq_bulkLoop (up : Upstream)
    (user_id upload_slice : Nat) (file_id : String)
    (dialogs : List DialogRecord) (S : Nat) (hS : S ≠ 0) :
    upload_dialogs up user_id upload_slice file_id dialogs (some S) =
      bulkLoop up file_id (bulk_data user_id file_id dialogs).length S 0
        (bulk_data user_id file_id dialogs) := by
  rcases Nat.exists_eq_succ_of_ne_zero hS with ⟨n, rfl⟩
  unfold upload_dialogs
  simp

/-- C3: for a dialog list of length `L` and slice size `S ≥ 1` on which
every chunk is accepted, `upload_dialogs` partitions the bulk data into
`⌈L/S⌉` (written `(L + S - 1) / S`) contiguous chunks of size at most `S`
whose concatenation is the input in order, submits exactly those chunks in
increasing offset order (the calls list is the chunk list in order), and
returns the concatenation, in submission order, of each chunk's returned
entities. -/
theorem upload_dialogs_chunking (up : Upstream) (user_id upload_slice : Nat)
    (file_id : String) (dialogs : List DialogRecord) (S : Nat)
    (hS : 1 ≤ S)
    (hsucc : ∀ c ∈ chunksOf S (bulk_data user_id file_id dialogs),
      (up.post_dialogs c).is_success = true) :
    (bulk_data user_id file_id dialogs).length = dialogs.length ∧
    (chunksOf S (bulk_data user_id file_id dialogs)).length =
      (dialogs.length + S - 1) / S ∧
    (∀ c ∈ chunksOf S (bulk_data user_id file_id dialogs), c.length ≤ S) ∧
    (chunksOf S (bulk_data user_id file_id dialogs)).flatten =
      bulk_data user_id file_id dialogs ∧
    (upload_dialogs up user_id upload_slice file_id dialogs (some S)).calls =
      (chunksOf S (bulk_data user_id file_id dialogs)).map
        ApiCall.postDialogsBulk ∧
    (upload_dialogs up user_id upload_slice file_id dialogs (some S)).result =
      Except.ok (((chunksOf S (bulk_data user_id file_id dialogs)).map
        (fun c => up.parse_dialogs (up.post_dialogs c).body)).flatten) := by
  have hS0 : S ≠ 0 := by omega
  have heq := upload_dialogs_eq_bulkLoop up user_id upload_slice file_id
    dialogs S hS0
  obtain ⟨hc, hr⟩ := bulkLoop_success up file_id
    (bulk_data user_id file_id dialogs).length S 0
    (bulk_data user_id file_id dialogs) hS0 hsucc
  refine ⟨by simp [bulk_data], ?_, chunksOf_mem_length S hS0 _,
    chunksOf_flatten S _, ?_, ?_⟩
  · rw [chunksOf_length S hS0]
    simp [bulk_data]
  · rw [heq, hc]
  · rw [heq, hr]

/-- C3 witness: 3 dialogs with slice size 2 give chunk sizes 2, 1. -/
theorem upload_dialogs_chunking_witness :
    (chunksOf 2 (bulk_data 7 "fid-1" fileA.dialogs)).length =
      (fileA.dialogs.length + 2 - 1) / 2 ∧
    (upload_dialogs upstreamNew 7 400 "fid-1" fileA.dialogs (some 2)).calls =
      (chunksOf 2 (bulk_data 7 "fid-1" fileA.dialogs)).map
        ApiCall.postDialogsBulk :=
  ⟨(upload_dialogs_chunking upstreamNew 7 400 "fid-1" fileA.dialogs 2
      (by decide)
      (by simp [chunksOf, bulk_data, fileA, upstreamNew,
        Response.is_success])).2.1,
   (upload_dialogs_chunking upstreamNew 7 400 "fid-1" fileA.dialogs 2
      (by decide)
      (by simp [chunksOf, bulk_data, fileA, upstreamNew,
        Response.is_success])).2.2.2.2.1⟩

/-- C7: if the chunks in `pre` are accepted and the next chunk `ck` is
rejected, `upload_dialogs` propagates that chunk's HTTP status error, and
the calls it made are exactly the successfully submitted chunks `pre`
followed by the failed attempt `ck`: nothing afterwards, and no
compensating call of any kind (the embedding's call trace records every
request the client can issue), so the earlier chunks stay created
upstream. -/
theorem upload_dialogs_partial_failure (up : Upstream)
    (user_id upload_slice : Nat) (file_id : String)
    (dialogs : List DialogRecord) (S : Nat) (hS : 1 ≤ S)
    (pre post : List (List DialogCreate)) (ck : List DialogCreate)
    (hch : chunksOf S (bulk_data user_id file_id dialogs) =
      pre ++ ck :: post)
    (hpre : ∀ c ∈ pre, (up.post_dialogs c).is_success = true)
    (hfail : (up.post_dialogs ck).is_success = false) :
    (upload_dialogs up user_id upload_slice file_id dialogs (some S)).calls =
      (pre ++ [ck]).map ApiCall.postDialogsBulk ∧
    (upload_dialogs up user_id upload_slice file_id dialogs (some S)).result =
      Except.error (PyError.httpStatusError (up.post_dialogs ck)) := by
  have hS0 : S ≠ 0 := by omega
  rw [upload_dialogs_eq_bulkLoop up user_id upload_slice file_id dialogs
    S hS0]
  exact bulkLoop_failure up file_id (bulk_data user_id file_id dialogs).length
    S hS0 post ck hfail pre (bulk_data user_id file_id dialogs) 0 hch hpre

/-- C7 witness: 3 dialogs, slice 2; the first chunk (2 dialogs) is
accepted, the second (1 dialog) is rejected. -/
theorem upload_dialogs_partial_failure_witness :
    (upload_dialogs upstreamChunk2 7 400 "fid-1" fileA.dialogs
      (some 2)).calls =
      [ApiCall.postDialogsBulk
         [⟨"fid-1", "line one", 0, 100, 7⟩,
          ⟨"fid-1", "line two", 100, 200, 7⟩],
       ApiCall.postDialogsBulk [⟨"fid-1", "line three", 200, 300, 7⟩]] ∧
    (upload_dialogs upstreamChunk2 7 400 "fid-1" fileA.dialogs
      (some 2)).result =
      Except.error (PyError.httpStatusError (Response.mk 500 "bulk broke")) :=
  upload_dialogs_partial_failure upstreamChunk2 7 400 "fid-1" fileA.dialogs 2
    (by decide)
    [[⟨"fid-1", "line one", 0, 100, 7⟩, ⟨"fid-1", "line two", 100, 200, 7⟩]]
    [] [⟨"fid-1", "line three", 200, 300, 7⟩]
    (by simp [chunksOf, bulk_data, fileA]) (by decide) (by decide)

/-- One run-loop step keeps the outstanding counter within the
parallelism bound: `launch` is guarded by `acquire`, `complete` only
decreases it. -/
theorem runStep_active_le (parallel : Nat) (s s2 : RunState) (a : RunAction)
    (h : runStep parallel s a = some s2) (hb : s.active ≤ parallel) :
    s2.active ≤ parallel := by
  cases s with
  | mk p a0 =>
    cases a with
    | launch =>
        cases p with
        | zero => exact absurd h (by simp [runStep])
        | succ p0 =>
            simp only [runStep] at h
            by_cases hlt : a0 < parallel
            · rw [if_pos hlt] at h
              injection h with h2
              subst h2
              exact hlt
            · rw [if_neg hlt] at h
              cases h
    | complete ok =>
        cases a0 with
        | zero => exact absurd h (by simp [runStep])
        | succ a1 =>
            simp only [runStep] at h
            injection h with h2
            subst h2
            simp at hb ⊢
            omega

/-- Along any valid schedule the counter stays within the bound. -/
theorem runTrace_active_le (parallel : Nat) :
    ∀ (acts : List RunAction) (start final : RunState),
      start.active ≤ parallel →
      runTrace parallel start acts = some final →
      final.active ≤ parallel := by
  intro acts
  induction acts with
  | nil =>
      intro start final hb h
      simp only [runTrace] at h
      injection h with h2
      subst h2
      exact hb
  | cons act rest ih =>
      intro start final hb h
      simp only [runTrace] at h
      cases hstep : runStep parallel start act with
      | none => rw [hstep] at h; cases h
      | some s2 =>
          rw [hstep] at h
          exact ih s2 final (runStep_active_le parallel start s2 act hstep hb)
            h

/-- Bookkeeping along a schedule: launches consume pending records, and
the counter equals launches minus completions. -/
theorem runTrace_counts (parallel : Nat) :
    ∀ (acts : List RunAction) (start final : RunState),
      runTrace parallel start acts = some final →
      start.pending = final.pending + countLaunch acts ∧
      start.active + countLaunch acts =
        final.active + countComplete acts := by
  intro acts
  induction acts with
  | nil =>
      intro start final h
      simp only [runTrace] at h
      injection h with h2
      subst h2
      simp [countLaunch, countComplete]
  | cons act rest ih =>
      intro start final h
      simp only [runTrace] at h
      cases hstep : runStep parallel start act with
      | none => rw [hstep] at h; cases h
      | some s2 =>
          rw [hstep] at h
          obtain ⟨ih1, ih2⟩ := ih s2 final h
          cases start with
          | mk p a0 =>
            cases act with
            | launch =>
                cases p with
                | zero => exact absurd hstep (by simp [runStep])
                | succ p0 =>
                    simp only [runStep] at hstep
                    by_cases hlt : a0 < parallel
                    · rw [if_pos hlt] at hstep
                      injection hstep with h2
                      subst h2
                      simp only [countLaunch, countComplete,
                        List.countP_cons] at ih1 ih2 ⊢
                      simp at ih1 ih2 ⊢
                      omega
                    · rw [if_neg hlt] at hstep
                      cases hstep
            | complete ok =>
                cases a0 with
                | zero => exact absurd hstep (by simp [runStep])
                | succ a1 =>
                    simp only [runStep] at hstep
                    injection hstep with h2
                    subst h2
                    simp only [countLaunch, countComplete,
                      List.countP_cons] at ih1 ih2 ⊢
                    simp at ih1 ih2 ⊢
                    omega

/-- C5: along any schedule of the run loop that starts with `n` records
and an idle limiter and ends fully drained (no pending record, counter
zero — the state in which `wait_all_finish()` returns), the number of
`release()` calls equals the number of `acquire()` calls (both equal
`n`); and a completing task triggers its release identically whether the
unit succeeded or failed. -/
theorem run_slot_conservation (parallel n : Nat) (acts : List RunAction)
    (h : runTrace parallel (RunState.mk n 0) acts =
      some (RunState.mk 0 0)) :
    countLaunch acts = n ∧
    countComplete acts = countLaunch acts ∧
    ∀ (s : RunState) (b1 b2 : Bool),
      runStep parallel s (RunAction.complete b1) =
        runStep parallel s (RunAction.complete b2) := by
  obtain ⟨h1, h2⟩ := runTrace_counts parallel acts ⟨n, 0⟩ ⟨0, 0⟩ h
  simp at h1 h2
  refine ⟨by omega, by omega, ?_⟩
  intro s b1 b2
  cases s with
  | mk p a0 => cases a0 <;> simp [runStep]

/-- C5 witness: 5 records, parallelism 2, a drained schedule. -/
theorem run_slot_conservation_witness :
    countLaunch acts5 = 5 ∧ countComplete acts5 = countLaunch acts5 :=
  ⟨(run_slot_conservation 2 5 acts5 (by decide)).1,
   (run_slot_conservation 2 5 acts5 (by decide)).2.1⟩

/-- C6: starting from `n` pending records and an idle limiter, every
state reachable by a valid schedule keeps at most `parallel` Upload Units
active: `acquire()` blocks each launch while the counter is at the
bound. -/
theorem run_bounded_concurrency (parallel n : Nat) (acts : List RunAction)
    (final : RunState)
    (h : runTrace parallel (RunState.mk n 0) acts = some final) :
    final.active ≤ parallel :=
  runTrace_active_le parallel acts ⟨n, 0⟩ final (Nat.zero_le parallel) h

/-- C6 witness: after launch, launch, complete, launch at parallelism 2
the counter holds 2 ≤ 2. -/
theorem run_bounded_concurrency_witness : (RunState.mk 2 2).active ≤ 2 :=
  run_bounded_concurrency 2 5
    [RunAction.launch, RunAction.launch, RunAction.complete true,
     RunAction.launch] ⟨2, 2⟩ (by decide)

end SagasuSubs
